import Mathlib

/-!
Verification of `scrapegraphai/graphs/script_creator_multi_graph.py`.

The module under study is the `ScriptCreatorMultiGraph` orchestrator: it takes
a defensive deep copy of the caller's configuration and schema, builds a
two-node pipeline (a `GraphIteratorNode` feeding a `MergeGeneratedScriptsNode`)
and executes it, returning the merged script or a sentinel failure string.

Python objects live on a heap and are passed by reference, so the defensive
copy properties are stated over an explicit heap model: a heap is a list of
objects, an address is an index, and `deepcopy` materialises a structurally
independent copy at fresh addresses.  External collaborators that are not part
of the excerpt (the sub-pipeline a `GraphIteratorNode` spawns per URL, the LLM
merge call, the base-class initialiser and the graph engine) are modelled from
the specification; each such definition is marked in its doc comment.
-/

namespace ScrapegraphVerif

/-- A heap object: either an atomic (immutable) value or a dict mapping string
keys to references to other heap objects.  This is the shape of the
configuration dictionaries the module copies. -/
inductive PyObj where
  | prim (s : String)
  | dict (entries : List (String × Nat))
deriving DecidableEq, Repr

/-- A heap: object at address `a` is the list entry at index `a`.
Allocation appends; mutation is `List.set`. -/
abbrev Heap := List PyObj

mutual
/-- The pure structural value of a heap object: what a deep copy preserves. -/
inductive Tree where
  | prim (s : String)
  | dict (entries : TreeEntries)
deriving DecidableEq, Repr

/-- Ordered key/value entries of a dict value. -/
inductive TreeEntries where
  | nil
  | cons (key : String) (val : Tree) (rest : TreeEntries)
deriving DecidableEq, Repr
end

mutual
/-- Number of heap nodes a tree occupies when materialised. -/
def treeSize : Tree → Nat
  | Tree.prim _ => 1
  | Tree.dict es => entsSize es + 1

/-- Total size of the trees in a list of entries. -/
def entsSize : TreeEntries → Nat
  | TreeEntries.nil => 0
  | TreeEntries.cons _ t rest => treeSize t + entsSize rest
end

mutual
/-- Reference depth of a tree: the fuel needed to read it back from a heap. -/
def treeDepth : Tree → Nat
  | Tree.prim _ => 1
  | Tree.dict es => entsDepth es + 1

/-- Maximal depth over a list of entries. -/
def entsDepth : TreeEntries → Nat
  | TreeEntries.nil => 0
  | TreeEntries.cons _ t rest => max (treeDepth t) (entsDepth rest)
end

/-- Read every entry of a dict body, reading each referenced child with the
given reader. -/
def readEntsWith (rb : Nat → Option Tree) : List (String × Nat) → Option TreeEntries
  | [] => some TreeEntries.nil
  | (k, a) :: rest =>
    match rb a, readEntsWith rb rest with
    | some t, some ts => some (TreeEntries.cons k t ts)
    | _, _ => none

/-- One dereference step of the read-back: look the address up and read the
entries of a dict body with the reader for the remaining depth. -/
def readBackStep (rb : Heap → Nat → Option Tree) (H : Heap) (a : Nat) :
    Option Tree :=
  match H[a]? with
  | some (PyObj.prim s) => some (Tree.prim s)
  | some (PyObj.dict es) => Option.map Tree.dict (readEntsWith (rb H) es)
  | none => none

/-- Read the structural value rooted at address `a`, following references,
with `fuel` bounding the reference depth (cycles and dangling references
yield `none`). -/
def readBackFuel : Nat → Heap → Nat → Option Tree
  | 0 => fun _ _ => none
  | fuel + 1 => readBackStep (readBackFuel fuel)

/-- Read back with fuel sufficient for any acyclic structure in `H`:
a successful dereference chain never revisits an address, so depth is at
most the heap size. -/
def readBackOpt (H : Heap) (a : Nat) : Option Tree :=
  readBackFuel (H.length + 1) H a

mutual
/-- Materialise a tree into a heap at fresh addresses (children first, root
last), returning the extended heap and the root's address. -/
def allocTree : Heap → Tree → Heap × Nat
  | H, Tree.prim s => (H ++ [PyObj.prim s], H.length)
  | H, Tree.dict es =>
    let p := allocEntries H es
    (p.1 ++ [PyObj.dict p.2], p.1.length)

/-- Materialise each entry of a dict body, returning the key/address pairs. -/
def allocEntries : Heap → TreeEntries → Heap × List (String × Nat)
  | H, TreeEntries.nil => (H, [])
  | H, TreeEntries.cons k t rest =>
    let q := allocTree H t
    let r := allocEntries q.1 rest
    (r.1, (k, q.2) :: r.2)
end

/-- Modelled from the spec: `safe_deepcopy` (`scrapegraphai/utils/copy.py`,
not part of the excerpt) produces a "structurally independent copy, not a
shared reference": read the structural value and materialise it at fresh
addresses. -/
def safe_deepcopy (fuel : Nat) (H : Heap) (a : Nat) : Option (Heap × Nat) :=
  (readBackFuel fuel H a).map (fun t => allocTree H t)

/-- Modelled from the spec: `copy.deepcopy` applied to the optional schema
argument; `none` is copied to `none`. -/
def deepcopyOpt (fuel : Nat) (H : Heap) : Option Nat → Option (Heap × Option Nat)
  | none => some (H, none)
  | some a => (safe_deepcopy fuel H a).map (fun p => (p.1, some p.2))

/-! ### Graph state and nodes -/

/-- A value stored in the execution state mapping: the module's states hold
the prompt (a string), the URL list, the per-URL script list, and the merged
script. -/
inductive SVal where
  | vstr (s : String)
  | vlist (xs : List String)
deriving DecidableEq, Repr

/-- The execution state: an insertion-ordered mapping from keys to values,
as a Python dict of the module's state. -/
abbrev GState := List (String × SVal)

/-- Look a key up in the state. -/
def lookupState : GState → String → Option SVal
  | [], _ => none
  | (k', v) :: rest, k => if k' = k then some v else lookupState rest k

/-- Insert or overwrite a key, preserving insertion order as a Python dict
does. -/
def insertState : GState → String → SVal → GState
  | [], k, v => [(k, v)]
  | (k', v') :: rest, k, v =>
    if k' = k then (k', v) :: rest else (k', v') :: insertState rest k v

/-- Read a string value from the state, defaulting to the empty string. -/
def getStr (st : GState) (k : String) : String :=
  match lookupState st k with
  | some (SVal.vstr s) => s
  | _ => ""

/-- Read a string-list value from the state, defaulting to the empty list. -/
def getList (st : GState) (k : String) : List String :=
  match lookupState st k with
  | some (SVal.vlist xs) => xs
  | _ => []

/-- Modelled from the spec: the language-model handle `self.llm_model` that
`AbstractGraph.__init__` (not part of the excerpt) builds from the
configuration's content. -/
structure LlmModel where
  cfg : Tree
deriving DecidableEq, Repr

/-- The opaque external collaborators of the module (spec section 6): the
per-URL sub-pipeline (`ScriptCreatorGraph`, invoked by the iterator node) and
the LLM merge invocation (which may fail to produce a value). -/
structure Collaborators where
  subPipeline : Option Tree → Option Tree → String → String → String
  llmMerge : LlmModel → String → List String → Option String

/-- The iterator node as built by `_create_graph`: its `node_config` holds
the `scraper_config` reference (the copied configuration) and the copied
schema. -/
structure GraphIteratorNode where
  input : String
  output : List String
  scraper_config : Nat
  schema : Option Nat
deriving DecidableEq, Repr

/-- The merge node as built by `_create_graph`: its `node_config` holds the
instance's `llm_model` and `schema`. -/
structure MergeGeneratedScriptsNode where
  input : String
  output : List String
  llm_model : LlmModel
  schema : Option Nat
deriving DecidableEq, Repr

/-- A pipeline node of this module's graph. -/
inductive GNode where
  | iter (n : GraphIteratorNode)
  | merge (n : MergeGeneratedScriptsNode)
deriving DecidableEq, Repr

/-- Display name of a node, for execution metadata. -/
def nodeName : GNode → String
  | GNode.iter _ => "GraphIteratorNode"
  | GNode.merge _ => "MergeGeneratedScriptsNode"

/-- The graph value passed to the engine, mirroring the `BaseGraph(...)`
constructor call in `_create_graph`. -/
structure BaseGraph where
  nodes : List GNode
  edges : List (GNode × GNode)
  entry_point : GNode
  graph_name : String
deriving DecidableEq, Repr

/-- Execution metadata returned by the engine alongside the final state. -/
structure ExecInfo where
  nodes_executed : List String
deriving DecidableEq, Repr

/-- The sentinel failure string of the module. -/
def failed_script_msg : String := "Failed to generate the script."

/-- Modelled from the spec: the action of a `GraphIteratorNode` (spec 4.1:
one fresh sub-pipeline invocation per URL, given the snapshot configuration
and schema, results reassembled in input order under the node's output key)
and of a `MergeGeneratedScriptsNode` (spec 4.2: one LLM invocation; an empty
artifact sequence or an LLM call that fails to produce a value yields the
explicit sentinel failure string rather than an exception).  The
configuration a sub-invocation observes is the structural value its
`scraper_config` reference points at in the current heap. -/
def execNode (C : Collaborators) (H : Heap) : GNode → GState → GState
  | GNode.iter n, st =>
    let prompt := getStr st "user_prompt"
    let urls := getList st "urls"
    let cfg := readBackOpt H n.scraper_config
    let sch := n.schema.bind (fun a => readBackOpt H a)
    insertState st "scripts"
      (SVal.vlist (urls.map (fun u => C.subPipeline cfg sch prompt u)))
  | GNode.merge n, st =>
    let prompt := getStr st "user_prompt"
    let scripts := getList st "scripts"
    let result :=
      if scripts.isEmpty then failed_script_msg
      else
        match C.llmMerge n.llm_model prompt scripts with
        | some s => s
        | none => failed_script_msg
    insertState st "merged_script" (SVal.vstr result)

/-- The unique successor of a node along the graph's edges. -/
def nextNode : List (GNode × GNode) → GNode → Option GNode
  | [], _ => none
  | (a, b) :: rest, n => if a = n then some b else nextNode rest n

/-- Walk the chain of nodes from the current one, threading the state and
recording the executed node names; `fuel` bounds the number of steps. -/
def execFrom (C : Collaborators) (H : Heap) (g : BaseGraph) :
    Nat → GNode → GState → GState × List String
  | 0, _, st => (st, [])
  | fuel + 1, n, st =>
    let st' := execNode C H n st
    match nextNode g.edges n with
    | none => (st', [nodeName n])
    | some m =>
      let p := execFrom C H g fuel m st'
      (p.1, nodeName n :: p.2)

/-- Modelled from the spec: the graph execution engine (`BaseGraph.execute`,
not part of the excerpt) "must accept a node/edge graph description plus an
entry point and an initial input mapping, and return a final state mapping
plus execution metadata" (spec section 6); it dispatches nodes from the entry
point along the edges. -/
def BaseGraph.execute (C : Collaborators) (H : Heap) (g : BaseGraph)
    (inputs : GState) : GState × ExecInfo :=
  let p := execFrom C H g g.nodes.length g.entry_point inputs
  (p.1, ⟨p.2⟩)

/-! ### The orchestrator -/

/-- The `ScriptCreatorMultiGraph` instance: its attributes.  `copy_config`
and `copy_schema` are the references produced by the defensive copies in
`__init__`; `llm_model` and `schema` are set by the base-class initialiser;
`graph` is the pipeline built by `_create_graph`; `final_state` and
`execution_info` are assigned by `run`. -/
structure ScriptCreatorMultiGraph where
  prompt : String
  source : List String
  copy_config : Nat
  copy_schema : Option Nat
  llm_model : LlmModel
  schema : Option Nat
  graph : BaseGraph
  final_state : Option GState
  execution_info : Option ExecInfo
deriving DecidableEq, Repr

/-- `_create_graph`, as a function of the instance attributes it reads:
builds the iterator node (bound to `copy_config` and `copy_schema`), the
merge node (bound to `llm_model` and `schema`), and the `BaseGraph` with the
single edge from the iterator node to the merge node and the iterator node as
entry point. -/
def create_graph (copy_config : Nat) (copy_schema : Option Nat)
    (llm_model : LlmModel) (schema : Option Nat) : BaseGraph :=
  let graph_iterator_node : GraphIteratorNode :=
    { input := "user_prompt & urls"
      output := ["scripts"]
      scraper_config := copy_config
      schema := copy_schema }
  let merge_scripts_node : MergeGeneratedScriptsNode :=
    { input := "user_prompt & scripts"
      output := ["merged_script"]
      llm_model := llm_model
      schema := schema }
  { nodes := [GNode.iter graph_iterator_node, GNode.merge merge_scripts_node]
    edges := [(GNode.iter graph_iterator_node, GNode.merge merge_scripts_node)]
    entry_point := GNode.iter graph_iterator_node
    graph_name := "ScriptCreatorMultiGraph" }

/-- `ScriptCreatorMultiGraph.__init__`: first the two defensive copies
(`self.copy_config = safe_deepcopy(config)`, `self.copy_schema =
deepcopy(schema)`), then the delegation to `super().__init__(prompt, config,
source, schema)`.  The base-class initialiser (`AbstractGraph.__init__`, not
part of the excerpt) is modelled from the spec and the class docstring: it
stores the prompt, source and schema, builds `self.llm_model` from the
configuration's content, and builds and stores the pipeline by calling the
subclass's `_create_graph`.  Fails (returns `none`) when the configuration
cannot be read within `fuel`. -/
def ScriptCreatorMultiGraph.init (fuel : Nat) (H0 : Heap) (prompt : String)
    (source : List String) (config : Nat) (schema : Option Nat) :
    Option (Heap × ScriptCreatorMultiGraph) :=
  match safe_deepcopy fuel H0 config with
  | none => none
  | some (H1, copyCfg) =>
    match deepcopyOpt fuel H1 schema with
    | none => none
    | some (H2, copySch) =>
      match readBackFuel fuel H2 config with
      | none => none
      | some cfgTree =>
        let llm : LlmModel := ⟨cfgTree⟩
        some (H2,
          { prompt := prompt
            source := source
            copy_config := copyCfg
            copy_schema := copySch
            llm_model := llm
            schema := schema
            graph := create_graph copyCfg copySch llm schema
            final_state := none
            execution_info := none })

/-- `run`: builds the input mapping from the stored prompt and sources,
executes the stored graph, assigns `self.final_state` and
`self.execution_info`, and returns
`self.final_state.get("merged_script", "Failed to generate the script.")`. -/
def ScriptCreatorMultiGraph.run (C : Collaborators) (H : Heap)
    (g : ScriptCreatorMultiGraph) : ScriptCreatorMultiGraph × SVal :=
  let inputs : GState :=
    [("user_prompt", SVal.vstr g.prompt), ("urls", SVal.vlist g.source)]
  let p := BaseGraph.execute C H g.graph inputs
  ({ g with final_state := some p.1, execution_info := some p.2 },
    (lookupState p.1 "merged_script").getD (SVal.vstr failed_script_msg))

/-- The spec's reading of `run` (spec 4.3: "Internally constructs the
pipeline fresh per call using independently-copied configuration and
schema"): rebuild the pipeline from the instance's current attributes on
every call, then execute that fresh pipeline.  Stated only to be compared
with the source's `run`, which executes the stored `self.graph`. -/
def ScriptCreatorMultiGraph.run_fresh_spec (C : Collaborators) (H : Heap)
    (g : ScriptCreatorMultiGraph) : ScriptCreatorMultiGraph × SVal :=
  let graph := create_graph g.copy_config g.copy_schema g.llm_model g.schema
  let inputs : GState :=
    [("user_prompt", SVal.vstr g.prompt), ("urls", SVal.vlist g.source)]
  let p := BaseGraph.execute C H graph inputs
  ({ g with
      graph := graph
      final_state := some p.1
      execution_info := some p.2 },
    (lookupState p.1 "merged_script").getD (SVal.vstr failed_script_msg))

/-- The public workflow operation: construct the orchestrator on the
caller's prompt and ordered URL list, then call `run`; returns the resulting
value (`none` only when construction itself fails to read the
configuration). -/
def runPublic (C : Collaborators) (fuel : Nat) (H0 : Heap) (config : Nat)
    (schema : Option Nat) (prompt : String) (sourceURLs : List String) :
    Option SVal :=
  (ScriptCreatorMultiGraph.init fuel H0 prompt sourceURLs config schema).map
    (fun p => (ScriptCreatorMultiGraph.run C p.1 p.2).2)

/-- Repeated calls of `run` on the same orchestrator instance. -/
def runIter (C : Collaborators) (H : Heap) :
    Nat → ScriptCreatorMultiGraph → ScriptCreatorMultiGraph
  | 0, g => g
  | n + 1, g => runIter C H n (ScriptCreatorMultiGraph.run C H g).1

/-- The iterator node of the built pipeline, extracted from the node list. -/
def iterNodeOf (g : ScriptCreatorMultiGraph) : Option GraphIteratorNode :=
  g.graph.nodes.findSome? (fun n =>
    match n with
    | GNode.iter m => some m
    | _ => none)

/-- The merge node of the built pipeline, extracted from the node list. -/
def mergeNodeOf (g : ScriptCreatorMultiGraph) : Option MergeGeneratedScriptsNode :=
  g.graph.nodes.findSome? (fun n =>
    match n with
    | GNode.merge m => some m
    | _ => none)

/-- The configuration bound into the iterator stage's sub-invocations: the
structural value the iterator node's `scraper_config` reference points at in
the given heap. -/
def iterBoundConfig (H : Heap) (g : ScriptCreatorMultiGraph) : Option Tree :=
  (iterNodeOf g).bind (fun n => readBackOpt H n.scraper_config)

/-- The artifacts the iterator stage produces: one sub-pipeline invocation
per URL, in input order, each receiving the snapshot configuration and
schema. -/
def iterArtifacts (C : Collaborators) (H : Heap) (cfgNat : Nat)
    (schNat : Option Nat) (prompt : String) (urls : List String) :
    List String :=
  urls.map (fun u =>
    C.subPipeline (readBackOpt H cfgNat) (schNat.bind (fun a => readBackOpt H a))
      prompt u)

/-- The merge stage's result text on a given artifact list. -/
def mergeText (C : Collaborators) (l : LlmModel) (prompt : String)
    (scripts : List String) : String :=
  if scripts.isEmpty then failed_script_msg
  else
    match C.llmMerge l prompt scripts with
    | some s => s
    | none => failed_script_msg


/-- Indexing into an append stays in the left part below its length. -/
theorem getElem?_append_lt {α : Type} (l1 l2 : List α) (n : Nat)
    (h : n < l1.length) : (l1 ++ l2)[n]? = l1[n]? := by
  simp [List.getElem?_append, h]

/-- Every tree occupies at least one heap node. -/
theorem treeSize_pos (t : Tree) : 1 ≤ treeSize t := by
  cases t <;> simp [treeSize]

mutual
/-- The reference depth of a tree is at most its node count. -/
theorem treeDepth_le_size (t : Tree) : treeDepth t ≤ treeSize t := by
  cases t with
  | prim s => simp [treeDepth, treeSize]
  | dict es =>
    simp only [treeDepth, treeSize]
    have h := entsDepth_le_size es
    omega

/-- Entries version of `treeDepth_le_size`. -/
theorem entsDepth_le_size (es : TreeEntries) : entsDepth es ≤ entsSize es := by
  cases es with
  | nil => simp [entsDepth, entsSize]
  | cons k t rest =>
    simp only [entsDepth, entsSize]
    have h1 := treeDepth_le_size t
    have h2 := entsDepth_le_size rest
    omega
end

mutual
/-- Materialising a tree extends the heap by exactly `treeSize t` nodes,
places the root at the last fresh address, leaves every pre-existing address
untouched, and the copy reads back to the original tree in any heap that
agrees with the extended heap on the fresh region — in particular after any
mutation of pre-existing addresses and after further allocations. -/
theorem allocTree_spec (t : Tree) (H : Heap) :
    (allocTree H t).1.length = H.length + treeSize t ∧
    (allocTree H t).2 + 1 = H.length + treeSize t ∧
    (∀ b, b < H.length → (allocTree H t).1[b]? = H[b]?) ∧
    (∀ G : Heap,
      (∀ c, H.length ≤ c → c < H.length + treeSize t →
        G[c]? = (allocTree H t).1[c]?) →
      ∀ f, treeDepth t ≤ f → readBackFuel f G (allocTree H t).2 = some t) := by
  cases t with
  | prim s =>
    refine ⟨by simp [allocTree, treeSize], by simp [allocTree, treeSize], ?_, ?_⟩
    · intro b hb
      simp only [allocTree]
      exact getElem?_append_lt H [PyObj.prim s] b hb
    · intro G hG f hf
      match f, hf with
      | f' + 1, _ =>
        have hc : G[H.length]? = some (PyObj.prim s) := by
          have h1 := hG H.length le_rfl (by simp [treeSize])
          simp only [allocTree] at h1
          rw [h1]
          exact List.getElem?_concat_length H (PyObj.prim s)
        simp only [allocTree]
        simp [readBackFuel, readBackStep, hc]
  | dict es =>
    obtain ⟨hlen, hpre, haddr, hread⟩ := allocEntries_spec es H
    refine ⟨?_, ?_, ?_, ?_⟩
    · simp only [allocTree, treeSize]
      simp only [List.length_append, List.length_cons, List.length_nil]
      omega
    · simp only [allocTree, treeSize]
      omega
    · intro b hb
      simp only [allocTree]
      rw [getElem?_append_lt _ _ b (by omega)]
      exact hpre b hb
    · intro G hG f hf
      simp only [treeDepth] at hf
      simp only [allocTree, treeSize] at hG ⊢
      match f, hf with
      | f' + 1, hf =>
        have hf' : entsDepth es ≤ f' := by omega
        have hroot : G[(allocEntries H es).1.length]? =
            some (PyObj.dict (allocEntries H es).2) := by
          have h1 := hG (allocEntries H es).1.length (by omega) (by omega)
          rw [h1]
          exact List.getElem?_concat_length _ _
        have hents : readEntsWith (readBackFuel f' G) (allocEntries H es).2 = some es := by
          apply hread G ?_ f' hf'
          intro c hc1 hc2
          have h1 := hG c hc1 (by omega)
          rw [h1]
          exact getElem?_append_lt _ _ c (by omega)
        rw [readBackFuel]
        simp only [readBackStep, hroot]
        simp [hents]

/-- Entries version of `allocTree_spec`: the fresh addresses of the copied
entries all lie in the fresh region, and the entries read back in any heap
agreeing with the extended heap on that region. -/
theorem allocEntries_spec (es : TreeEntries) (H : Heap) :
    (allocEntries H es).1.length = H.length + entsSize es ∧
    (∀ b, b < H.length → (allocEntries H es).1[b]? = H[b]?) ∧
    (∀ pa ∈ (allocEntries H es).2,
      H.length ≤ pa.2 ∧ pa.2 + 1 ≤ H.length + entsSize es) ∧
    (∀ G : Heap,
      (∀ c, H.length ≤ c → c < H.length + entsSize es →
        G[c]? = (allocEntries H es).1[c]?) →
      ∀ f, entsDepth es ≤ f →
        readEntsWith (readBackFuel f G) (allocEntries H es).2 = some es) := by
  cases es with
  | nil =>
    refine ⟨by simp [allocEntries, entsSize], ?_, ?_, ?_⟩
    · intro b hb
      simp [allocEntries]
    · intro pa hpa
      simp [allocEntries] at hpa
    · intro G hG f hf
      simp [allocEntries, readEntsWith]
  | cons k t rest =>
    obtain ⟨hlen1, haddr1, hpre1, hread1⟩ := allocTree_spec t H
    obtain ⟨hlen2, hpre2, haddr2, hread2⟩ :=
      allocEntries_spec rest (allocTree H t).1
    have hts := treeSize_pos t
    refine ⟨?_, ?_, ?_, ?_⟩
    · simp only [allocEntries, entsSize]
      omega
    · intro b hb
      simp only [allocEntries]
      rw [hpre2 b (by omega)]
      exact hpre1 b hb
    · intro pa hpa
      simp only [allocEntries, List.mem_cons] at hpa
      rcases hpa with h | h
      · subst h
        simp only [entsSize]
        omega
      · have := haddr2 pa h
        simp only [entsSize]
        omega
    · intro G hG f hf
      simp only [entsDepth] at hf
      simp only [allocEntries, entsSize] at hG ⊢
      have hft : treeDepth t ≤ f := le_trans (le_max_left _ _) hf
      have hfr : entsDepth rest ≤ f := le_trans (le_max_right _ _) hf
      have hval : readBackFuel f G (allocTree H t).2 = some t := by
        apply hread1 G ?_ f hft
        intro c hc1 hc2
        rw [hG c hc1 (by omega)]
        exact hpre2 c (by omega)
      have hrest : readEntsWith (readBackFuel f G)
          (allocEntries (allocTree H t).1 rest).2 = some rest := by
        apply hread2 G ?_ f hfr
        intro c hc1 hc2
        exact hG c (by omega) (by omega)
      simp only [readEntsWith, hval, hrest]
end



/-- Characterisation of a successful construction: the configuration was
readable as some tree `t`, the snapshot `copy_config` is the root of a fresh
materialisation of `t`, the attributes are as stored by the initialisers, the
pipeline is the one built by `_create_graph` from the instance's attributes,
and the final heap preserves the whole materialised region. -/
theorem init_spec (fuel : Nat) (H0 : Heap) (prompt : String)
    (source : List String) (config : Nat) (schema : Option Nat)
    (H1 : Heap) (g : ScriptCreatorMultiGraph)
    (hinit : ScriptCreatorMultiGraph.init fuel H0 prompt source config schema
      = some (H1, g)) :
    ∃ t : Tree, readBackFuel fuel H0 config = some t ∧
      g.prompt = prompt ∧
      g.source = source ∧
      g.schema = schema ∧
      g.copy_config = (allocTree H0 t).2 ∧
      g.graph = create_graph g.copy_config g.copy_schema g.llm_model g.schema ∧
      g.final_state = none ∧
      g.execution_info = none ∧
      (allocTree H0 t).1.length ≤ H1.length ∧
      (∀ c, c < (allocTree H0 t).1.length → H1[c]? = (allocTree H0 t).1[c]?) := by
  unfold ScriptCreatorMultiGraph.init safe_deepcopy at hinit
  cases hrb : readBackFuel fuel H0 config with
  | none => rw [hrb] at hinit; simp at hinit
  | some t =>
    rw [hrb] at hinit
    simp only [Option.map_some'] at hinit
    refine ⟨t, rfl, ?_⟩
    cases schema with
    | none =>
      simp only [deepcopyOpt] at hinit
      cases hrb2 : readBackFuel fuel (allocTree H0 t).1 config with
      | none => rw [hrb2] at hinit; simp at hinit
      | some t2 =>
        rw [hrb2] at hinit
        simp only [Option.some.injEq, Prod.mk.injEq] at hinit
        obtain ⟨hH, hg⟩ := hinit
        subst hH
        subst hg
        refine ⟨rfl, rfl, rfl, rfl, rfl, rfl, rfl, le_rfl, ?_⟩
        intro c hc
        rfl
    | some sa =>
      simp only [deepcopyOpt, safe_deepcopy] at hinit
      cases hrb3 : readBackFuel fuel (allocTree H0 t).1 sa with
      | none => rw [hrb3] at hinit; simp at hinit
      | some u =>
        rw [hrb3] at hinit
        simp only [Option.map_some'] at hinit
        cases hrb2 : readBackFuel fuel (allocTree (allocTree H0 t).1 u).1 config with
        | none => rw [hrb2] at hinit; simp at hinit
        | some t2 =>
          rw [hrb2] at hinit
          simp only [Option.some.injEq, Prod.mk.injEq] at hinit
          obtain ⟨hH, hg⟩ := hinit
          subst hH
          subst hg
          obtain ⟨hlen2, haddr2, hpre2, _⟩ := allocTree_spec u (allocTree H0 t).1
          refine ⟨rfl, rfl, rfl, rfl, rfl, rfl, rfl, by omega, ?_⟩
          intro c hc
          exact hpre2 c hc



/-- The iterator node extracted from a pipeline built by `_create_graph`. -/
theorem iterNodeOf_create (g : ScriptCreatorMultiGraph) (a : Nat)
    (b : Option Nat) (l : LlmModel) (s : Option Nat)
    (hg : g.graph = create_graph a b l s) :
    iterNodeOf g = some ⟨"user_prompt & urls", ["scripts"], a, b⟩ := by
  simp [iterNodeOf, hg, create_graph, List.findSome?]

/-- The merge node extracted from a pipeline built by `_create_graph`. -/
theorem mergeNodeOf_create (g : ScriptCreatorMultiGraph) (a : Nat)
    (b : Option Nat) (l : LlmModel) (s : Option Nat)
    (hg : g.graph = create_graph a b l s) :
    mergeNodeOf g = some ⟨"user_prompt & scripts", ["merged_script"], l, s⟩ := by
  simp [mergeNodeOf, hg, create_graph, List.findSome?]

/-- Executing the pipeline built by `_create_graph` runs the iterator node
first and the merge node exactly afterwards: the engine starts at the entry
point (the iterator node) and follows the single edge to the merge node. -/
theorem execute_create_graph (C : Collaborators) (H : Heap) (a : Nat)
    (b : Option Nat) (l : LlmModel) (s : Option Nat) (inputs : GState) :
    BaseGraph.execute C H (create_graph a b l s) inputs =
      (execNode C H (GNode.merge ⟨"user_prompt & scripts", ["merged_script"], l, s⟩)
        (execNode C H (GNode.iter ⟨"user_prompt & urls", ["scripts"], a, b⟩) inputs),
       ⟨["GraphIteratorNode", "MergeGeneratedScriptsNode"]⟩) := by
  simp [BaseGraph.execute, create_graph, execFrom, nextNode, nodeName]



/-- Full computation of `run` on an instance whose stored pipeline was built
by `_create_graph`: the iterator node reads the prompt and URL list from the
inputs and writes the per-URL artifacts under `scripts`; the merge node reads
the prompt and `scripts` and writes its result under `merged_script`; `run`
stores the final state and execution metadata on the instance and returns the
value found under `merged_script`. -/
theorem run_eq (C : Collaborators) (H : Heap) (g : ScriptCreatorMultiGraph)
    (a : Nat) (b : Option Nat) (l : LlmModel) (s : Option Nat)
    (hg : g.graph = create_graph a b l s) :
    ScriptCreatorMultiGraph.run C H g =
      ({ g with
          final_state := some
            [("user_prompt", SVal.vstr g.prompt),
             ("urls", SVal.vlist g.source),
             ("scripts", SVal.vlist (iterArtifacts C H a b g.prompt g.source)),
             ("merged_script", SVal.vstr
               (mergeText C l g.prompt (iterArtifacts C H a b g.prompt g.source)))]
          execution_info := some ⟨["GraphIteratorNode", "MergeGeneratedScriptsNode"]⟩ },
        SVal.vstr (mergeText C l g.prompt (iterArtifacts C H a b g.prompt g.source))) := by
  simp only [ScriptCreatorMultiGraph.run, hg, execute_create_graph]
  simp [execNode, getStr, getList, lookupState, insertState, iterArtifacts, mergeText]



/-! ### Concrete test fixtures used by the witnesses -/

/-- A concrete caller heap: the caller's configuration dict at address 0
(whose "llm" entry references the atom at address 1) and a schema object at
address 2. -/
def testHeap : Heap :=
  [PyObj.dict [("llm", 1)], PyObj.prim "gpt", PyObj.prim "schemaobj"]

/-- The language-model handle built from `testHeap`'s configuration. -/
def testLlm : LlmModel :=
  ⟨Tree.dict (TreeEntries.cons "llm" (Tree.prim "gpt") TreeEntries.nil)⟩

/-- The heap after constructing on `testHeap` with no schema: the snapshot
of the configuration occupies the fresh addresses 3 and 4. -/
def testHeap1 : Heap :=
  testHeap ++ [PyObj.prim "gpt", PyObj.dict [("llm", 3)]]

/-- The instance constructed on `testHeap` with no schema. -/
def testInst : ScriptCreatorMultiGraph :=
  { prompt := "p"
    source := ["u"]
    copy_config := 4
    copy_schema := none
    llm_model := testLlm
    schema := none
    graph := create_graph 4 none testLlm none
    final_state := none
    execution_info := none }

/-- Concrete collaborators: the sub-pipeline tags each URL with the prompt
and the merge call joins the artifacts. -/
def testCollab : Collaborators :=
  ⟨fun _ _ p u => p ++ ":" ++ u, fun _ _ ss => some (String.intercalate "|" ss)⟩

/-! ### C1 -/

/-- C1: the `copy_config` snapshot taken at construction is structurally
independent of the caller's configuration object: mutating any address of
the caller's heap (every address that existed before construction, hence in
particular every part of the caller's configuration object) after
construction leaves the configuration bound into the iterator stage's
sub-invocations unchanged — and that configuration is exactly the structural
value of the configuration as passed to the constructor. -/
theorem c1_copy_config_independent_of_caller_mutation (fuel : Nat) (H0 : Heap)
    (prompt : String) (source : List String) (config : Nat)
    (schema : Option Nat) (H1 : Heap) (g : ScriptCreatorMultiGraph)
    (hinit : ScriptCreatorMultiGraph.init fuel H0 prompt source config schema
      = some (H1, g))
    (b : Nat) (hb : b < H0.length) (o : PyObj) :
    iterBoundConfig (H1.set b o) g = iterBoundConfig H1 g ∧
    iterBoundConfig H1 g = readBackFuel fuel H0 config := by
  obtain ⟨t, hrb, _, _, _, hcopy, hgraph, _, _, hlen, hpre⟩ :=
    init_spec fuel H0 prompt source config schema H1 g hinit
  obtain ⟨hlenA, haddrA, _, hreadA⟩ := allocTree_spec t H0
  have hdepth : treeDepth t ≤ treeSize t := treeDepth_le_size t
  have hboth : ∀ G : Heap, G.length = H1.length →
      (∀ c, H0.length ≤ c → c < (allocTree H0 t).1.length → G[c]? = H1[c]?) →
      readBackOpt G (allocTree H0 t).2 = some t := by
    intro G hGlen hGpre
    have hfuel : treeDepth t ≤ G.length + 1 := by omega
    have hagree : ∀ c, H0.length ≤ c → c < H0.length + treeSize t →
        G[c]? = (allocTree H0 t).1[c]? := by
      intro c hc1 hc2
      have hc3 : c < (allocTree H0 t).1.length := by omega
      rw [hGpre c hc1 hc3]
      exact hpre c hc3
    exact hreadA G hagree (G.length + 1) hfuel
  have h1 : readBackOpt H1 (allocTree H0 t).2 = some t :=
    hboth H1 rfl (fun c _ _ => rfl)
  have h2 : readBackOpt (H1.set b o) (allocTree H0 t).2 = some t := by
    apply hboth (H1.set b o) (by simp)
    intro c hc1 hc2
    exact List.getElem?_set_ne (by omega)
  have hiter := iterNodeOf_create g g.copy_config g.copy_schema g.llm_model
    g.schema hgraph
  constructor
  · simp [iterBoundConfig, hiter, hcopy, h1, h2]
  · simp [iterBoundConfig, hiter, hcopy, h1, hrb]

/-- Witness for C1 at the concrete fixture: construction on `testHeap`
succeeds, address 1 (the atom the caller's configuration references) is a
pre-existing address, and mutating it leaves the bound configuration
unchanged and equal to the originally passed configuration value. -/
theorem c1_witness :
    iterBoundConfig (testHeap1.set 1 (PyObj.prim "mutated")) testInst
      = iterBoundConfig testHeap1 testInst ∧
    iterBoundConfig testHeap1 testInst = readBackFuel 5 testHeap 0 :=
  c1_copy_config_independent_of_caller_mutation 5 testHeap "p" ["u"] 0 none
    testHeap1 testInst (by decide) 1 (by decide) (PyObj.prim "mutated")



/-! ### C9 -/

/-- C9: the constructor takes its defensive snapshots on lines 51–52, before
delegating to `super().__init__` on line 53.  Consequently the configuration
bound into the iterator's sub-invocations equals the structural value of the
caller's configuration exactly as originally passed (`readBackFuel fuel H0
config`), and it is unaffected by whatever normalisation or mutation the
base-class initialisation performs afterwards: the conclusion holds in every
heap `H2` obtained from the post-construction heap by mutating pre-existing
objects (the only objects the base class holds references to) and by further
allocation — i.e. any heap at least as long as `H1` that agrees with `H1` on
the snapshot region. -/
theorem c9_snapshot_before_base_init (fuel : Nat) (H0 : Heap)
    (prompt : String) (source : List String) (config : Nat)
    (schema : Option Nat) (H1 : Heap) (g : ScriptCreatorMultiGraph)
    (hinit : ScriptCreatorMultiGraph.init fuel H0 prompt source config schema
      = some (H1, g))
    (H2 : Heap) (hlen2 : H1.length ≤ H2.length)
    (hagree2 : ∀ c, H0.length ≤ c → c < H1.length → H2[c]? = H1[c]?) :
    iterBoundConfig H2 g = readBackFuel fuel H0 config := by
  obtain ⟨t, hrb, _, _, _, hcopy, hgraph, _, _, hlen, hpre⟩ :=
    init_spec fuel H0 prompt source config schema H1 g hinit
  obtain ⟨hlenA, haddrA, _, hreadA⟩ := allocTree_spec t H0
  have hdepth : treeDepth t ≤ treeSize t := treeDepth_le_size t
  have h2 : readBackOpt H2 (allocTree H0 t).2 = some t := by
    have hfuel : treeDepth t ≤ H2.length + 1 := by omega
    have hagree : ∀ c, H0.length ≤ c → c < H0.length + treeSize t →
        H2[c]? = (allocTree H0 t).1[c]? := by
      intro c hc1 hc2
      have hc3 : c < (allocTree H0 t).1.length := by omega
      rw [hagree2 c hc1 (by omega)]
      exact hpre c hc3
    exact hreadA H2 hagree (H2.length + 1) hfuel
  have hiter := iterNodeOf_create g g.copy_config g.copy_schema g.llm_model
    g.schema hgraph
  simp [iterBoundConfig, hiter, hcopy, h2, hrb]

/-- Witness for C9 at the concrete fixture: a base-class initialisation that
overwrites the caller's configuration dict at address 0 (a pre-existing
address) leaves the configuration handed to the sub-invocations equal to the
value originally passed. -/
theorem c9_witness :
    iterBoundConfig (testHeap1.set 0 (PyObj.dict [])) testInst
      = readBackFuel 5 testHeap 0 :=
  c9_snapshot_before_base_init 5 testHeap "p" ["u"] 0 none testHeap1 testInst
    (by decide) (testHeap1.set 0 (PyObj.dict [])) (by decide)
    (fun c hc1 hc2 => by
      simp only [testHeap, List.length_cons, List.length_nil] at hc1
      simp only [testHeap1, testHeap, List.length_append, List.length_cons,
        List.length_nil] at hc2
      interval_cases c <;> rfl)



/-! ### C2 -/

/-- C2: `run` is a total function (the modelled collaborators are
non-throwing, per the spec's error-handling policy) that always assigns a
complete final state and execution metadata to the instance and returns
either the value stored under the key `merged_script` in that final state or
the explicit sentinel failure string — never a null or partially-initialized
result. -/
theorem c2_run_merged_or_sentinel (C : Collaborators) (H : Heap)
    (g : ScriptCreatorMultiGraph) :
    ∃ fs ei,
      (ScriptCreatorMultiGraph.run C H g).1.final_state = some fs ∧
      (ScriptCreatorMultiGraph.run C H g).1.execution_info = some ei ∧
      ((∃ v, lookupState fs "merged_script" = some v ∧
          (ScriptCreatorMultiGraph.run C H g).2 = v) ∨
        (lookupState fs "merged_script" = none ∧
          (ScriptCreatorMultiGraph.run C H g).2
            = SVal.vstr "Failed to generate the script.")) := by
  refine ⟨(BaseGraph.execute C H g.graph
    [("user_prompt", SVal.vstr g.prompt), ("urls", SVal.vlist g.source)]).1,
    (BaseGraph.execute C H g.graph
    [("user_prompt", SVal.vstr g.prompt), ("urls", SVal.vlist g.source)]).2,
    rfl, rfl, ?_⟩
  cases hl : lookupState (BaseGraph.execute C H g.graph
      [("user_prompt", SVal.vstr g.prompt), ("urls", SVal.vlist g.source)]).1
      "merged_script" with
  | none =>
    right
    refine ⟨rfl, ?_⟩
    simp [ScriptCreatorMultiGraph.run, hl, failed_script_msg]
  | some v =>
    left
    refine ⟨v, rfl, ?_⟩
    simp [ScriptCreatorMultiGraph.run, hl]

/-! ### C3 -/

/-- C3: constructing the workflow on an empty URL list and running it
returns the literal failure sentinel string, in any heap and with any
collaborators: the iterator node maps the sub-pipeline over the empty URL
list producing an empty artifact sequence under `scripts`, the merge stage
receives that empty sequence and produces the sentinel, and `run` returns
it; the embedded `run` is total, so no exception is possible, and the
sentinel is returned rather than empty text. -/
theorem c3_empty_url_list_yields_sentinel (fuel : Nat) (H0 : Heap)
    (prompt : String) (config : Nat) (schema : Option Nat)
    (H1 : Heap) (g : ScriptCreatorMultiGraph)
    (hinit : ScriptCreatorMultiGraph.init fuel H0 prompt [] config schema
      = some (H1, g))
    (C : Collaborators) (H : Heap) :
    (ScriptCreatorMultiGraph.run C H g).2
      = SVal.vstr "Failed to generate the script." := by
  obtain ⟨t, _, _, hsource, _, _, hgraph, _, _, _, _⟩ :=
    init_spec fuel H0 prompt [] config schema H1 g hinit
  rw [run_eq C H g g.copy_config g.copy_schema g.llm_model g.schema hgraph]
  simp [mergeText, iterArtifacts, hsource, failed_script_msg]

/-- The instance constructed on `testHeap` with an empty URL list. -/
def testInstEmpty : ScriptCreatorMultiGraph :=
  { testInst with source := [] }

/-- Witness for C3 at the concrete fixture: the constructed workflow with no
URLs runs to the sentinel string. -/
theorem c3_witness :
    (ScriptCreatorMultiGraph.run testCollab testHeap1 testInstEmpty).2
      = SVal.vstr "Failed to generate the script." :=
  c3_empty_url_list_yields_sentinel 5 testHeap "p" 0 none testHeap1
    testInstEmpty (by decide) testCollab testHeap1

/-! ### C4 -/

/-- C4: the public operation accepts a prompt and an ordered sequence of
source URLs (bound at construction, as `__init__(prompt, source, config)`)
and `run` returns the merged artifact text: the composition
`runPublic C fuel H0 config schema prompt sourceURLs` yields exactly the
text produced by the merge stage over the per-URL artifacts generated for
`prompt` in input order. -/
theorem c4_run_prompt_sources_to_text (C : Collaborators) (fuel : Nat)
    (H0 : Heap) (config : Nat) (schema : Option Nat) (prompt : String)
    (sourceURLs : List String) (H1 : Heap) (g : ScriptCreatorMultiGraph)
    (hinit : ScriptCreatorMultiGraph.init fuel H0 prompt sourceURLs config
      schema = some (H1, g)) :
    runPublic C fuel H0 config schema prompt sourceURLs =
      some (SVal.vstr (mergeText C g.llm_model prompt
        (iterArtifacts C H1 g.copy_config g.copy_schema prompt sourceURLs))) := by
  obtain ⟨t, _, hprompt, hsource, _, _, hgraph, _, _, _, _⟩ :=
    init_spec fuel H0 prompt sourceURLs config schema H1 g hinit
  unfold runPublic
  rw [hinit]
  simp only [Option.map_some']
  rw [run_eq C H1 g g.copy_config g.copy_schema g.llm_model g.schema hgraph]
  rw [hprompt, hsource]

/-- Witness for C4 at the concrete fixture: the public operation on prompt
`"p"` and URL list `["u"]` returns the merged artifact text. -/
theorem c4_witness :
    runPublic testCollab 5 testHeap 0 none "p" ["u"] =
      some (SVal.vstr (mergeText testCollab testInst.llm_model "p"
        (iterArtifacts testCollab testHeap1 testInst.copy_config
          testInst.copy_schema "p" ["u"]))) :=
  c4_run_prompt_sources_to_text testCollab 5 testHeap 0 none "p" ["u"]
    testHeap1 testInst (by decide)



/-! ### C7 -/

/-- C7: the pipeline built by `_create_graph` is exactly a two-node graph —
an iterator node and a merge node — with the single edge from the iterator
node to the merge node and the iterator node as entry point; and `run`
executes it from the initial input mapping containing exactly the user
prompt under `user_prompt` and the source URL list under `urls`, so the
final state is the merge node's action applied after the iterator node's
action on exactly those inputs. -/
theorem c7_two_stage_chain (fuel : Nat) (H0 : Heap) (prompt : String)
    (source : List String) (config : Nat) (schema : Option Nat)
    (H1 : Heap) (g : ScriptCreatorMultiGraph)
    (hinit : ScriptCreatorMultiGraph.init fuel H0 prompt source config schema
      = some (H1, g))
    (C : Collaborators) (H : Heap) :
    ∃ itn mn,
      g.graph.nodes = [GNode.iter itn, GNode.merge mn] ∧
      g.graph.edges = [(GNode.iter itn, GNode.merge mn)] ∧
      g.graph.entry_point = GNode.iter itn ∧
      (ScriptCreatorMultiGraph.run C H g).1.final_state =
        some (execNode C H (GNode.merge mn) (execNode C H (GNode.iter itn)
          [("user_prompt", SVal.vstr prompt), ("urls", SVal.vlist source)])) := by
  obtain ⟨t, _, hprompt, hsource, _, _, hgraph, _, _, _, _⟩ :=
    init_spec fuel H0 prompt source config schema H1 g hinit
  refine ⟨⟨"user_prompt & urls", ["scripts"], g.copy_config, g.copy_schema⟩,
    ⟨"user_prompt & scripts", ["merged_script"], g.llm_model, g.schema⟩,
    ?_, ?_, ?_, ?_⟩
  · rw [hgraph]; rfl
  · rw [hgraph]; rfl
  · rw [hgraph]; rfl
  · simp only [ScriptCreatorMultiGraph.run, hgraph, execute_create_graph]
    rw [hprompt, hsource]

/-- Witness for C7 at the concrete fixture. -/
theorem c7_witness :
    ∃ itn mn,
      testInst.graph.nodes = [GNode.iter itn, GNode.merge mn] ∧
      testInst.graph.edges = [(GNode.iter itn, GNode.merge mn)] ∧
      testInst.graph.entry_point = GNode.iter itn ∧
      (ScriptCreatorMultiGraph.run testCollab testHeap1 testInst).1.final_state =
        some (execNode testCollab testHeap1 (GNode.merge mn)
          (execNode testCollab testHeap1 (GNode.iter itn)
            [("user_prompt", SVal.vstr "p"), ("urls", SVal.vlist ["u"])])) :=
  c7_two_stage_chain 5 testHeap "p" ["u"] 0 none testHeap1 testInst
    (by decide) testCollab testHeap1

/-! ### C10 -/

/-- C10: the state keys are wired consistently — the iterator node writes
its artifact list under `scripts`, the merge node reads `user_prompt`
together with `scripts` and writes its result under `merged_script`, and
`run` reads exactly `merged_script` from the final state: whenever the merge
stage's LLM invocation produces a value `v` (on a nonempty artifact list),
`run` returns `v` itself, not the sentinel default. -/
theorem c10_keys_consistent (fuel : Nat) (H0 : Heap) (prompt : String)
    (source : List String) (config : Nat) (schema : Option Nat)
    (H1 : Heap) (g : ScriptCreatorMultiGraph)
    (hinit : ScriptCreatorMultiGraph.init fuel H0 prompt source config schema
      = some (H1, g))
    (C : Collaborators) (H : Heap) (v : String)
    (hne : source ≠ [])
    (hllm : C.llmMerge g.llm_model prompt
      (iterArtifacts C H g.copy_config g.copy_schema prompt source) = some v) :
    ∃ fs,
      (ScriptCreatorMultiGraph.run C H g).1.final_state = some fs ∧
      lookupState fs "scripts" = some (SVal.vlist
        (iterArtifacts C H g.copy_config g.copy_schema prompt source)) ∧
      lookupState fs "merged_script" = some (SVal.vstr v) ∧
      (ScriptCreatorMultiGraph.run C H g).2 = SVal.vstr v := by
  obtain ⟨t, _, hprompt, hsource, _, _, hgraph, _, _, _, _⟩ :=
    init_spec fuel H0 prompt source config schema H1 g hinit
  rw [run_eq C H g g.copy_config g.copy_schema g.llm_model g.schema hgraph]
  rw [hprompt, hsource]
  have hmt : mergeText C g.llm_model prompt
      (iterArtifacts C H g.copy_config g.copy_schema prompt source) = v := by
    unfold mergeText
    rw [hllm]
    simp [iterArtifacts, hne]
  refine ⟨_, rfl, ?_, ?_, ?_⟩
  · simp [lookupState]
  · simp [lookupState, hmt]
  · simp [hmt]

/-- Witness for C10 at the concrete fixture: the merge call produces
`"p:u"`, and `run` returns exactly that value. -/
theorem c10_witness :
    ∃ fs,
      (ScriptCreatorMultiGraph.run testCollab testHeap1 testInst).1.final_state
        = some fs ∧
      lookupState fs "scripts" = some (SVal.vlist
        (iterArtifacts testCollab testHeap1 testInst.copy_config
          testInst.copy_schema "p" ["u"])) ∧
      lookupState fs "merged_script" = some (SVal.vstr "p:u") ∧
      (ScriptCreatorMultiGraph.run testCollab testHeap1 testInst).2
        = SVal.vstr "p:u" :=
  c10_keys_consistent 5 testHeap "p" ["u"] 0 none testHeap1 testInst
    (by decide) testCollab testHeap1 "p:u" (by decide) (by decide)



/-! ### C5 -/

/-- The heap after constructing on `testHeap` with the schema object at
address 2: the configuration snapshot occupies addresses 3–4 and the schema
snapshot address 5. -/
def testHeapS : Heap :=
  testHeap ++ [PyObj.prim "gpt", PyObj.dict [("llm", 3)], PyObj.prim "schemaobj"]

/-- The instance constructed on `testHeap` with the schema at address 2. -/
def testInstS : ScriptCreatorMultiGraph :=
  { prompt := "p"
    source := ["u"]
    copy_config := 4
    copy_schema := some 5
    llm_model := testLlm
    schema := some 2
    graph := create_graph 4 (some 5) testLlm (some 2)
    final_state := none
    execution_info := none }

/-- C5 counterexample: on a concrete construction with a schema object at
address 2, the merge node is bound to the caller's original schema reference
(`some 2`, the value `self.schema` stored by the base-class initialiser) and
not to the defensive snapshot `copy_schema` (`some 5`): it is false that
both stages receive the defensive snapshots. -/
theorem c5_counterexample :
    ScriptCreatorMultiGraph.init 5 testHeap "p" ["u"] 0 (some 2)
      = some (testHeapS, testInstS) ∧
    (mergeNodeOf testInstS).map MergeGeneratedScriptsNode.schema
      = some (some 2) ∧
    testInstS.copy_schema = some 5 ∧
    (mergeNodeOf testInstS).map MergeGeneratedScriptsNode.schema
      ≠ some testInstS.copy_schema := by decide

/-- C5 amended: the iterator stage is bound to the snapshots — its
`scraper_config` is `copy_config` and its schema is `copy_schema` — while
the merge stage is bound to the instance's `llm_model` and to the uncopied
`self.schema` stored by the base-class initialiser, which is the caller's
original schema reference, not the snapshot. -/
theorem c5_stage_bindings (fuel : Nat) (H0 : Heap) (prompt : String)
    (source : List String) (config : Nat) (schema : Option Nat)
    (H1 : Heap) (g : ScriptCreatorMultiGraph)
    (hinit : ScriptCreatorMultiGraph.init fuel H0 prompt source config schema
      = some (H1, g)) :
    iterNodeOf g = some
      ⟨"user_prompt & urls", ["scripts"], g.copy_config, g.copy_schema⟩ ∧
    mergeNodeOf g = some
      ⟨"user_prompt & scripts", ["merged_script"], g.llm_model, g.schema⟩ ∧
    g.schema = schema := by
  obtain ⟨t, _, _, _, hschema, _, hgraph, _, _, _, _⟩ :=
    init_spec fuel H0 prompt source config schema H1 g hinit
  exact ⟨iterNodeOf_create g g.copy_config g.copy_schema g.llm_model g.schema
      hgraph,
    mergeNodeOf_create g g.copy_config g.copy_schema g.llm_model g.schema
      hgraph,
    hschema⟩

/-- Witness for the amended C5 at the concrete fixture with a schema. -/
theorem c5_witness :
    iterNodeOf testInstS = some
      ⟨"user_prompt & urls", ["scripts"], testInstS.copy_config,
        testInstS.copy_schema⟩ ∧
    mergeNodeOf testInstS = some
      ⟨"user_prompt & scripts", ["merged_script"], testInstS.llm_model,
        testInstS.schema⟩ ∧
    testInstS.schema = some 2 :=
  c5_stage_bindings 5 testHeap "p" ["u"] 0 (some 2) testHeapS testInstS
    (by decide)

/-! ### C6 -/

/-- The fixture instance after its `llm_model` attribute is reassigned
between calls, as Python attribute assignment permits: the stored pipeline
still carries the construction-time handle. -/
def testInstMut : ScriptCreatorMultiGraph :=
  { testInst with llm_model := ⟨Tree.prim "other"⟩ }

/-- C6 counterexample: `run` executes the stored `self.graph`, built once
during construction — it does not construct the pipeline fresh from the
instance's current attributes on each call.  On an instance whose
`llm_model` attribute differs from the one captured in the stored pipeline,
the source's `run` and the spec's construct-fresh-per-call run
(`run_fresh_spec`) differ observably, refuting the claim that a new pipeline
is built per invocation. -/
theorem c6_counterexample :
    ScriptCreatorMultiGraph.run testCollab testHeap1 testInstMut ≠
      ScriptCreatorMultiGraph.run_fresh_spec testCollab testHeap1 testInstMut
      := by decide

/-- C6 amended: the two-stage pipeline is constructed once, during
base-class initialisation (which calls `_create_graph` and stores the result
in `self.graph`), and every subsequent call of `run` on the same orchestrator
instance reuses that stored pipeline unchanged: after any number of repeated
runs the stored pipeline is still exactly the one built at construction from
the construction-time attributes. -/
theorem c6_pipeline_built_once_and_reused (fuel : Nat) (H0 : Heap)
    (prompt : String) (source : List String) (config : Nat)
    (schema : Option Nat) (H1 : Heap) (g : ScriptCreatorMultiGraph)
    (hinit : ScriptCreatorMultiGraph.init fuel H0 prompt source config schema
      = some (H1, g))
    (C : Collaborators) (H : Heap) (n : Nat) :
    (runIter C H n g).graph
      = create_graph g.copy_config g.copy_schema g.llm_model g.schema := by
  obtain ⟨t, _, _, _, _, _, hgraph, _, _, _, _⟩ :=
    init_spec fuel H0 prompt source config schema H1 g hinit
  have hstep : ∀ g' : ScriptCreatorMultiGraph,
      (ScriptCreatorMultiGraph.run C H g').1.graph = g'.graph := by
    intro g'
    rfl
  have hiter : ∀ m (g' : ScriptCreatorMultiGraph),
      (runIter C H m g').graph = g'.graph := by
    intro m
    induction m with
    | zero => intro g'; rfl
    | succ m ih =>
      intro g'
      rw [runIter, ih, hstep]
  rw [hiter n g, hgraph]

/-- Witness for the amended C6 at the concrete fixture, after three runs. -/
theorem c6_witness :
    (runIter testCollab testHeap1 3 testInst).graph
      = create_graph testInst.copy_config testInst.copy_schema
          testInst.llm_model testInst.schema :=
  c6_pipeline_built_once_and_reused 5 testHeap "p" ["u"] 0 none testHeap1
    testInst (by decide) testCollab testHeap1 3

/-! ### C8 -/

/-- C8 counterexample: after `run` returns on the concrete fixture, the
orchestrator still holds the final state, the execution metadata and the
configuration snapshot reference: they persist on the instance across
invocations, refuting the claim that nothing persists after the call
returns. -/
theorem c8_counterexample :
    (ScriptCreatorMultiGraph.run testCollab testHeap1 testInst).1.final_state
      ≠ none ∧
    (ScriptCreatorMultiGraph.run testCollab testHeap1 testInst).1.execution_info
      ≠ none ∧
    (ScriptCreatorMultiGraph.run testCollab testHeap1 testInst).1.copy_config
      = testInst.copy_config := by decide

/-- C8 amended: the configuration snapshot is created once, at construction
(not once per invocation), and is retained by the instance; each call of
`run` assigns the final state and execution metadata to the instance, where
they remain after the call returns, are visible to the next invocation, and
are overwritten by it; the snapshot reference survives repeated runs
unchanged. -/
theorem c8_run_state_persists_on_instance (C : Collaborators) (H : Heap)
    (g : ScriptCreatorMultiGraph) :
    ∃ fs ei,
      (ScriptCreatorMultiGraph.run C H g).1.final_state = some fs ∧
      (ScriptCreatorMultiGraph.run C H g).1.execution_info = some ei ∧
      (ScriptCreatorMultiGraph.run C H g).1.copy_config = g.copy_config ∧
      (ScriptCreatorMultiGraph.run C H g).1.copy_schema = g.copy_schema ∧
      (ScriptCreatorMultiGraph.run C H
        (ScriptCreatorMultiGraph.run C H g).1).1.copy_config
        = g.copy_config := by
  exact ⟨_, _, rfl, rfl, rfl, rfl, rfl⟩


end ScrapegraphVerif
